import Mathlib

/-!
Verification of the RL-Representation repository's architecture-selection and
experience-buffer logic.

The Python code is shallowly embedded:
* Python tuple indexing `t[i]` becomes `tupGet`, returning `Except String Nat`
  (an out-of-range access is an `IndexError`).
* A torch `nn.Sequential` of layers becomes a `List Layer`; each layer is given
  its shape semantics (`Layer.outShape`): the shape of the output tensor as a
  function of the shape of the input tensor, with the dimension checks torch
  performs (kernel larger than padded input, `Linear` input-width mismatch,
  `view` element-count mismatch) returning errors.  Shapes are `List Nat`
  including the batch dimension.
* Functions that can raise return `Except String`.
* The dueling-Q network (value-level claims) is embedded over `ℚ` with
  weights as functions on `Fin`.
* `np.random.choice` is modelled by passing the drawn indices as an explicit
  argument (the oracle of the random draw); its error conditions are kept.
-/

deriving instance DecidableEq for Except

def indexErrorMsg : String := "IndexError: tuple index out of range"

def notSupportedMsg : String := "1D observation dimensions this large are not supported!"

/-- Python tuple/list indexing `l[i]` for non-negative `i`: `IndexError` when
out of range. -/
def tupGet (l : List Nat) (i : Nat) : Except String Nat :=
  match l[i]? with
  | some v => Except.ok v
  | none => Except.error indexErrorMsg

/-- The torch layers that occur in `models/base.py`, with their construction
parameters.  `conv2d inC outC k s p` is `nn.Conv2d(inC, outC, k, s, p)`;
`convT2d` is `nn.ConvTranspose2d`; `reshape` is the source's `ReshapeLayer`. -/
inductive Layer where
  | flatten : Layer
  | linear : Nat → Nat → Layer
  | relu : Layer
  | conv2d : Nat → Nat → Nat → Nat → Nat → Layer
  | convT2d : Nat → Nat → Nat → Nat → Nat → Layer
  | reshape : List Nat → Layer
deriving DecidableEq, Repr

/-- Output spatial size of a convolution: `(size + 2p - k) / s + 1`. -/
def convOut (size k s p : Nat) : Nat := (size + 2 * p - k) / s + 1

/-- Output spatial size of a transposed convolution: `(size - 1) * s + k - 2p`. -/
def convTOut (size k s p : Nat) : Nat := (size - 1) * s + k - 2 * p

/-- Shape semantics of one torch layer on a batched input shape. -/
def Layer.outShape : Layer → List Nat → Except String (List Nat)
  | .flatten, b :: rest => Except.ok [b, rest.prod]
  | .flatten, [] => Except.error "flatten: no dimensions"
  | .linear inF outF, shape =>
    if shape ≠ [] ∧ shape.getLastD 0 = inF then
      Except.ok (shape.dropLast ++ [outF])
    else
      Except.error "mat1 and mat2 shapes cannot be multiplied"
  | .relu, shape => Except.ok shape
  | .conv2d inC outC k s p, [b, c, h, w] =>
    if c = inC ∧ k ≤ h + 2 * p ∧ k ≤ w + 2 * p then
      Except.ok [b, outC, convOut h k s p, convOut w k s p]
    else
      Except.error "conv2d: invalid input"
  | .conv2d _ _ _ _ _, _ => Except.error "conv2d: expected 4D input"
  | .convT2d inC outC k s p, [b, c, h, w] =>
    if c = inC ∧ 1 ≤ h ∧ 1 ≤ w then
      Except.ok [b, outC, convTOut h k s p, convTOut w k s p]
    else
      Except.error "convT2d: invalid input"
  | .convT2d _ _ _ _ _, _ => Except.error "convT2d: expected 4D input"
  | .reshape tgt, b :: rest =>
    if rest.prod = tgt.prod then Except.ok (b :: tgt)
    else Except.error "view: shape invalid for input size"
  | .reshape _, [] => Except.error "view: no dimensions"

/-- `nn.Sequential.forward`: thread the shape through the layers in order. -/
def seqShape : List Layer → List Nat → Except String (List Nat)
  | [], s => Except.ok s
  | l :: ls, s =>
    match l.outShape s with
    | Except.ok s' => seqShape ls s'
    | Except.error e => Except.error e

/-- `create_simple_1D_encoder` (reads `input_dim[0] * input_dim[1]`). -/
def create_simple_1D_encoder (input_dim : List Nat) : Except String (List Layer) :=
  match tupGet input_dim 0 with
  | Except.error e => Except.error e
  | Except.ok d0 =>
    match tupGet input_dim 1 with
    | Except.error e => Except.error e
    | Except.ok d1 =>
      Except.ok [Layer.flatten, Layer.linear (d0 * d1) 16, Layer.relu,
                 Layer.linear 16 32, Layer.relu]

/-- `create_simple_1D_decoder` (reads `input_dim[0] * input_dim[1]`). -/
def create_simple_1D_decoder (input_dim : List Nat) : Except String (List Layer) :=
  match tupGet input_dim 0 with
  | Except.error e => Except.error e
  | Except.ok d0 =>
    match tupGet input_dim 1 with
    | Except.error e => Except.error e
    | Except.ok d1 =>
      Except.ok [Layer.linear 32 16, Layer.relu, Layer.linear 16 (d0 * d1),
                 Layer.reshape input_dim]

/-- `create_gridworld_encoder(n_channels)`. -/
def create_gridworld_encoder (n_channels : Nat) : List Layer :=
  [Layer.conv2d n_channels 8 4 2 0, Layer.relu, Layer.conv2d 8 16 3 1 0, Layer.relu]

/-- `create_gridworld_decoder(n_channels)`. -/
def create_gridworld_decoder (n_channels : Nat) : List Layer :=
  [Layer.convT2d 16 8 3 1 0, Layer.relu, Layer.convT2d 8 n_channels 4 2 0,
   Layer.conv2d n_channels n_channels 3 1 1]

/-- `create_atari_encoder(n_channels)`. -/
def create_atari_encoder (n_channels : Nat) : List Layer :=
  [Layer.conv2d n_channels 32 5 5 0, Layer.relu, Layer.conv2d 32 64 5 5 0, Layer.relu]

/-- `create_atari_decoder(n_channels)`. -/
def create_atari_decoder (n_channels : Nat) : List Layer :=
  [Layer.convT2d 64 32 5 5 0, Layer.relu, Layer.convT2d 32 n_channels 5 5 0,
   Layer.relu, Layer.conv2d n_channels n_channels 3 1 1]

def GYM_HIDDEN_SIZE : Nat := 32
def GRIDWORLD_HIDDEN_SIZE : Nat := 64
def ATARI_HIDDEN_SIZE : Nat := 256

/-- `get_hidden_size_from_obs_dim`: dispatch on the observation shape; the
`elif` branch reads `obs_dim[1]` (an `IndexError` on shorter shapes). -/
def get_hidden_size_from_obs_dim (obs_dim : List Nat) : Except String Nat :=
  if obs_dim.length = 2 then
    match tupGet obs_dim 0 with
    | Except.error e => Except.error e
    | Except.ok d0 =>
      if d0 ≤ 32 then Except.ok GYM_HIDDEN_SIZE
      else Except.error notSupportedMsg
  else
    match tupGet obs_dim 1 with
    | Except.error e => Except.error e
    | Except.ok d1 =>
      if d1 ≤ 32 then Except.ok GRIDWORLD_HIDDEN_SIZE
      else Except.ok ATARI_HIDDEN_SIZE

/-- `create_encoder_from_obs_dim`. -/
def create_encoder_from_obs_dim (obs_dim : List Nat) : Except String (List Layer) :=
  if obs_dim.length = 2 then
    match tupGet obs_dim 0 with
    | Except.error e => Except.error e
    | Except.ok d0 =>
      if d0 ≤ 32 then create_simple_1D_encoder obs_dim
      else Except.error notSupportedMsg
  else
    match tupGet obs_dim 1 with
    | Except.error e => Except.error e
    | Except.ok d1 =>
      match tupGet obs_dim 0 with
      | Except.error e => Except.error e
      | Except.ok d0 =>
        if d1 ≤ 32 then Except.ok (create_gridworld_encoder d0)
        else Except.ok (create_atari_encoder d0)

/-- `create_decoder_from_obs_dim` (note: its flat case tests `len(obs_dim) == 1`). -/
def create_decoder_from_obs_dim (obs_dim : List Nat) : Except String (List Layer) :=
  if obs_dim.length = 1 then
    match tupGet obs_dim 0 with
    | Except.error e => Except.error e
    | Except.ok d0 =>
      if d0 ≤ 32 then create_simple_1D_decoder obs_dim
      else Except.error notSupportedMsg
  else
    match tupGet obs_dim 1 with
    | Except.error e => Except.error e
    | Except.ok d1 =>
      match tupGet obs_dim 0 with
      | Except.error e => Except.error e
      | Except.ok d0 =>
        if d1 ≤ 32 then Except.ok (create_gridworld_decoder d0)
        else Except.ok (create_atari_decoder d0)

/-- Spec-side classifier, written from the spec's words (§4.1 Policy): a
length-2 shape with first element ≤ 32 is family "flat" with width 32; a
length-2 shape with first element > 32 is unsupported; otherwise second
element ≤ 32 is "small-grid" with width 64, else "large-grid" with width 256.
Used only to compare the source functions against the spec. -/
def specPolicy (s : List Nat) : Except String (String × Nat) :=
  if s.length = 2 then
    if s.getD 0 0 ≤ 32 then Except.ok ("flat", 32)
    else Except.error notSupportedMsg
  else if s.getD 1 0 ≤ 32 then Except.ok ("small-grid", 64)
  else Except.ok ("large-grid", 256)

/-- Spec-side mapping from a family name to the encoder the source builds for
that family; glue for stating the refinement of `create_encoder_from_obs_dim`
against `specPolicy`. -/
def specFamilyEncoder (fam : String) (s : List Nat) : Except String (List Layer) :=
  if fam = "flat" then create_simple_1D_encoder s
  else if fam = "small-grid" then Except.ok (create_gridworld_encoder (s.getD 0 0))
  else Except.ok (create_atari_encoder (s.getD 0 0))

/-! ## Experience buffer (`src/agents/base.py`, `ExperienceBufferMixin`) -/

/-- The mixin's state: `self.buffer` and `self.max_size`. -/
structure ExperienceBufferMixin (α : Type) where
  buffer : List α
  max_size : Nat
deriving DecidableEq, Repr

/-- Python's slice `l[-k:]`: for `k = 0` this is `l[0:]`, the whole list; for
`k ≥ 1` the last `min k l.length` elements. -/
def pySliceLast (l : List α) (k : Nat) : List α :=
  if k = 0 then l else l.drop (l.length - k)

/-- `_fix_size`: `self.buffer = self.buffer[-self.max_size:]`. -/
def ExperienceBufferMixin.fix_size (st : ExperienceBufferMixin α) :
    ExperienceBufferMixin α :=
  { st with buffer := pySliceLast st.buffer st.max_size }

/-- `append_data`: append then `_fix_size`. -/
def ExperienceBufferMixin.append_data (st : ExperienceBufferMixin α) (d : α) :
    ExperienceBufferMixin α :=
  ExperienceBufferMixin.fix_size { st with buffer := st.buffer ++ [d] }

/-- `extend_data`: extend then `_fix_size`. -/
def ExperienceBufferMixin.extend_data (st : ExperienceBufferMixin α) (ds : List α) :
    ExperienceBufferMixin α :=
  ExperienceBufferMixin.fix_size { st with buffer := st.buffer ++ ds }

/-- One buffer-mutating call. -/
inductive BufOp (α : Type) where
  | append : α → BufOp α
  | extend : List α → BufOp α
deriving DecidableEq, Repr

/-- The items an operation inserts, in insertion order. -/
def BufOp.items : BufOp α → List α
  | .append d => [d]
  | .extend ds => ds

/-- Run a sequence of `append_data` / `extend_data` calls. -/
def ExperienceBufferMixin.run (st : ExperienceBufferMixin α) :
    List (BufOp α) → ExperienceBufferMixin α
  | [] => st
  | BufOp.append d :: ops => ExperienceBufferMixin.run (st.append_data d) ops
  | BufOp.extend ds :: ops => ExperienceBufferMixin.run (st.extend_data ds) ops

/-- The last `min k l.length` elements of `l`. -/
def lastN (l : List α) (k : Nat) : List α := l.drop (l.length - k)

/-- `np.random.choice(range(popSize), size=n, replace=replace)`, with the drawn
indices supplied as the oracle `idxs`.  Error conditions mirror numpy: an empty
population with a non-empty draw, and a without-replacement draw larger than
the population. -/
def npChoice (popSize n : Nat) (replace : Bool) (idxs : List Nat) :
    Except String (List Nat) :=
  if popSize = 0 ∧ n ≠ 0 then
    Except.error "a must be greater than 0 unless no samples are taken"
  else if replace = false ∧ popSize < n then
    Except.error "Cannot take a larger sample than population when replace is False"
  else Except.ok idxs

/-- `ExperienceBufferMixin.sample` on the buffer contents, records embedded as
lists of rationals (one entry per tuple position).  After the draw, the code
builds `batch_data`, stacks it with `np.array`, and reads
`batch_data.shape[1]`: on an empty batch the stacked array is 1-dimensional and
that read raises `IndexError`.  Otherwise it returns one array per tuple
position `i`, holding entry `i` of each drawn record. -/
def sampleData (buffer : List (List ℚ)) (n : Nat) (replace : Bool)
    (idxs : List Nat) : Except String (List (List ℚ)) :=
  match npChoice buffer.length n replace idxs with
  | Except.error e => Except.error e
  | Except.ok is =>
    let batch := is.map (fun i => buffer.getD i [])
    if batch.isEmpty then Except.error indexErrorMsg
    else
      let arity := (batch.headD []).length
      Except.ok ((List.range arity).map (fun j => batch.map (fun r => r.getD j 0)))

/-- The `sample` method: reads `self.buffer`, never assigns to `self`; as a
state transformer it returns the result with the state it read. -/
def ExperienceBufferMixin.sample (st : ExperienceBufferMixin (List ℚ))
    (n : Nat) (replace : Bool) (idxs : List Nat) :
    Except String (List (List ℚ)) × ExperienceBufferMixin (List ℚ) :=
  (sampleData st.buffer n replace idxs, st)

/-! ## Network assemblers (shape level) -/

/-- `PolicyNetwork`: the constructed encoder, the flattened size of the trial
forward pass (`encoder(zeros(1, *obs_dim)).view(-1).shape[0]`), the hidden
width, and the action count. -/
structure PolicyNetwork where
  encoder : List Layer
  encoder_output_size : Nat
  hidden_size : Nat
  n_acts : Nat
deriving DecidableEq, Repr

/-- `PolicyNetwork.__init__` with default `encoder` and `hidden_size`:
build the encoder from the shape, run the trial forward pass, look up the
hidden width. -/
def PolicyNetwork.make (obs_dim : List Nat) (n_acts : Nat) :
    Except String PolicyNetwork :=
  match create_encoder_from_obs_dim obs_dim with
  | Except.error e => Except.error e
  | Except.ok enc =>
    match seqShape enc (1 :: obs_dim) with
    | Except.error e => Except.error e
    | Except.ok trial =>
      match get_hidden_size_from_obs_dim obs_dim with
      | Except.error e => Except.error e
      | Except.ok hidden => Except.ok ⟨enc, trial.prod, hidden, n_acts⟩

/-- `self.layers` of `PolicyNetwork`. -/
def PolicyNetwork.layers (net : PolicyNetwork) : List Layer :=
  net.encoder ++ [Layer.flatten, Layer.linear net.encoder_output_size net.hidden_size,
                  Layer.relu, Layer.linear net.hidden_size net.n_acts]

/-- `PolicyNetwork.forward` at the shape level. -/
def PolicyNetwork.forwardShape (net : PolicyNetwork) (s : List Nat) :
    Except String (List Nat) :=
  seqShape net.layers s

/-- `StatePredictionModel`: encoder, flattened trial size, hidden width,
action count, the `fc` transition stack and the decoder. -/
structure StatePredictionModel where
  downsample_convs : List Layer
  output_dim : Nat
  hidden_size : Nat
  n_acts : Nat
  fc : List Layer
  upsample_convs : List Layer
deriving DecidableEq, Repr

/-- `StatePredictionModel.__init__` with default `hidden_size`.  The trial
forward pass runs only the encoder; `fc` is built with input width
`output_dim + n_acts` and the decoder is constructed but not run. -/
def StatePredictionModel.make (obs_dim : List Nat) (n_acts : Nat) :
    Except String StatePredictionModel :=
  match create_encoder_from_obs_dim obs_dim with
  | Except.error e => Except.error e
  | Except.ok down =>
    match seqShape down (1 :: obs_dim) with
    | Except.error e => Except.error e
    | Except.ok trial =>
      match get_hidden_size_from_obs_dim obs_dim with
      | Except.error e => Except.error e
      | Except.ok hidden =>
        match create_decoder_from_obs_dim obs_dim with
        | Except.error e => Except.error e
        | Except.ok up =>
          Except.ok ⟨down, trial.prod, hidden, n_acts,
            [Layer.linear (trial.prod + n_acts) hidden, Layer.relu,
             Layer.linear hidden hidden, Layer.relu,
             Layer.linear hidden trial.prod, Layer.relu], up⟩

/-- `z = conv_out.view(obs.shape[0], -1)`: torch errors when the batch is 0
(the `-1` is ambiguous) or when the element count is not divisible. -/
def viewTwo (b total : Nat) : Except String (List Nat) :=
  if b ≠ 0 ∧ total % b = 0 then Except.ok [b, total / b]
  else Except.error "view: cannot infer dimension"

/-- `torch.cat([z, acts], dim=1)` for a rank-2 `z`: `acts` must be rank 2 with
the same leading dimension. -/
def catDim1 (z acts : List Nat) : Except String (List Nat) :=
  match z, acts with
  | [b, f], [b2, m] =>
    if b = b2 then Except.ok [b, f + m]
    else Except.error "cat: sizes of tensors must match except in dimension 1"
  | _, _ => Except.error "cat: expected rank-2 tensors"

/-- `z.view(*list(conv_out.shape))`: element count must match. -/
def viewAs (z tgt : List Nat) : Except String (List Nat) :=
  if z.prod = tgt.prod then Except.ok tgt
  else Except.error "view: shape invalid for input size"

/-- `StatePredictionModel.forward` at the shape level. -/
def StatePredictionModel.forwardShape (m : StatePredictionModel)
    (obsShape actsShape : List Nat) : Except String (List Nat) :=
  match seqShape m.downsample_convs obsShape with
  | Except.error e => Except.error e
  | Except.ok convOutS =>
    match tupGet obsShape 0 with
    | Except.error e => Except.error e
    | Except.ok b =>
      match viewTwo b convOutS.prod with
      | Except.error e => Except.error e
      | Except.ok z =>
        match catDim1 z actsShape with
        | Except.error e => Except.error e
        | Except.ok z2 =>
          match seqShape m.fc z2 with
          | Except.error e => Except.error e
          | Except.ok z3 =>
            match viewAs z3 convOutS with
            | Except.error e => Except.error e
            | Except.ok z4 => seqShape m.upsample_convs z4

/-! ## Dueling-Q network (value level, over `ℚ`) -/

/-- An `nn.Linear(inF, outF)`: weight matrix and bias. -/
structure LinearLayer (inF outF : Nat) where
  weight : Fin outF → Fin inF → ℚ
  bias : Fin outF → ℚ

/-- `Linear.forward`. -/
def LinearLayer.apply (L : LinearLayer inF outF) (x : Fin inF → ℚ) :
    Fin outF → ℚ :=
  fun i => (∑ j, L.weight i j * x j) + L.bias i

/-- Pointwise ReLU on a vector. -/
def reluVec (x : Fin n → ℚ) : Fin n → ℚ := fun i => max (x i) 0

/-- `DDDQNNetwork` after the encoder: the encoder is an abstract map from the
input type to its flattened output (the heads flatten first, so they see a
vector of width `encOut`), plus the two-layer value and advantage heads. -/
structure DDDQNNetwork (σ : Type) (encOut hid n_acts : Nat) where
  encoder : σ → Fin encOut → ℚ
  value1 : LinearLayer encOut hid
  value2 : LinearLayer hid 1
  advantage1 : LinearLayer encOut hid
  advantage2 : LinearLayer hid n_acts

/-- `self.value_layers(z)`: Flatten → Linear → ReLU → Linear. -/
def DDDQNNetwork.valueOut (net : DDDQNNetwork σ encOut hid n_acts)
    (z : Fin encOut → ℚ) : Fin 1 → ℚ :=
  net.value2.apply (reluVec (net.value1.apply z))

/-- `self.advantage_layers(z)`. -/
def DDDQNNetwork.advantageOut (net : DDDQNNetwork σ encOut hid n_acts)
    (z : Fin encOut → ℚ) : Fin n_acts → ℚ :=
  net.advantage2.apply (reluVec (net.advantage1.apply z))

/-- `advantages.mean(dim=1)` for one batch element. -/
def DDDQNNetwork.advantageMean (net : DDDQNNetwork σ encOut hid n_acts)
    (z : Fin encOut → ℚ) : ℚ :=
  (∑ i, net.advantageOut z i) / n_acts

/-- `DDDQNNetwork.forward` for one batch element: the `(B,1)` value tensor
broadcasts over the action dimension when added to `(B, n_acts)`. -/
def DDDQNNetwork.forward (net : DDDQNNetwork σ encOut hid n_acts)
    (x : σ) : Fin n_acts → ℚ :=
  fun i =>
    let z := net.encoder x
    net.valueOut z ⟨0, Nat.one_pos⟩ +
      (net.advantageOut z i - net.advantageMean z)

/-- `_init_weights`: fill the final layer of both heads with zeros. -/
def DDDQNNetwork.init_weights (net : DDDQNNetwork σ encOut hid n_acts) :
    DDDQNNetwork σ encOut hid n_acts :=
  { net with
    value2 := ⟨fun _ _ => 0, fun _ => 0⟩,
    advantage2 := ⟨fun _ _ => 0, fun _ => 0⟩ }

example : get_hidden_size_from_obs_dim [32, 4] = Except.ok 32 := by decide
example : get_hidden_size_from_obs_dim [33, 4] = Except.error notSupportedMsg := by decide
example : get_hidden_size_from_obs_dim [1, 20, 20] = Except.ok 64 := by decide
example : get_hidden_size_from_obs_dim [4, 84, 84] = Except.ok 256 := by decide
example : get_hidden_size_from_obs_dim [5] = Except.error indexErrorMsg := by decide
example : create_decoder_from_obs_dim [5] = Except.error indexErrorMsg := by decide

/-! ## Claims about the observation-shape classifier -/

/-- C1: for every observation shape (with the two elements the policy reads),
`get_hidden_size_from_obs_dim` returns exactly the hidden width of the spec's
policy (`specPolicy`), and `create_encoder_from_obs_dim` returns exactly the
encoder of the family the policy names: "flat" → simple-1D encoder with width
32, unsupported for a length-2 shape with first element > 32, "small-grid" →
gridworld encoder with width 64, "large-grid" → atari encoder with width 256. -/
theorem c1_classifier_matches_spec_policy (s : List Nat) (h : 2 ≤ s.length) :
    get_hidden_size_from_obs_dim s = Except.map Prod.snd (specPolicy s) ∧
    create_encoder_from_obs_dim s =
      (specPolicy s).bind (fun p => specFamilyEncoder p.1 s) := by
  match s, h with
  | a :: b :: rest, _ =>
    cases rest with
    | nil =>
      by_cases ha : a ≤ 32 <;>
        simp [get_hidden_size_from_obs_dim, create_encoder_from_obs_dim, specPolicy,
              specFamilyEncoder, create_simple_1D_encoder, tupGet, ha,
              Except.map, Except.bind, GYM_HIDDEN_SIZE]
    | cons c rest' =>
      by_cases hb : b ≤ 32 <;>
        simp [get_hidden_size_from_obs_dim, create_encoder_from_obs_dim, specPolicy,
              specFamilyEncoder, tupGet, hb, Except.map, Except.bind,
              GRIDWORLD_HIDDEN_SIZE, ATARI_HIDDEN_SIZE]

/-- Witness for C1 at the spec's three examples: `(32, 4)`, `(1, 20, 20)`,
`(4, 84, 84)`. -/
theorem c1_classifier_matches_spec_policy_witness :
    (get_hidden_size_from_obs_dim [32, 4] = Except.map Prod.snd (specPolicy [32, 4]) ∧
     create_encoder_from_obs_dim [32, 4] =
       (specPolicy [32, 4]).bind (fun p => specFamilyEncoder p.1 [32, 4])) ∧
    (get_hidden_size_from_obs_dim [1, 20, 20] = Except.map Prod.snd (specPolicy [1, 20, 20]) ∧
     create_encoder_from_obs_dim [1, 20, 20] =
       (specPolicy [1, 20, 20]).bind (fun p => specFamilyEncoder p.1 [1, 20, 20])) ∧
    (get_hidden_size_from_obs_dim [4, 84, 84] = Except.map Prod.snd (specPolicy [4, 84, 84]) ∧
     create_encoder_from_obs_dim [4, 84, 84] =
       (specPolicy [4, 84, 84]).bind (fun p => specFamilyEncoder p.1 [4, 84, 84])) :=
  ⟨c1_classifier_matches_spec_policy [32, 4] (by decide),
   c1_classifier_matches_spec_policy [1, 20, 20] (by decide),
   c1_classifier_matches_spec_policy [4, 84, 84] (by decide)⟩

/-- C4: every length-2 shape with leading element > 32 makes both
`get_hidden_size_from_obs_dim` and `create_encoder_from_obs_dim` fail with the
configuration error, returning no width and no encoder. -/
theorem c4_large_flat_shape_rejected (a b : Nat) (h : 32 < a) :
    get_hidden_size_from_obs_dim [a, b] = Except.error notSupportedMsg ∧
    create_encoder_from_obs_dim [a, b] = Except.error notSupportedMsg := by
  have ha : ¬ a ≤ 32 := by omega
  simp [get_hidden_size_from_obs_dim, create_encoder_from_obs_dim, tupGet, ha]

/-- Witness for C4 at the spec's example `(33, 4)`. -/
theorem c4_large_flat_shape_rejected_witness :
    get_hidden_size_from_obs_dim [33, 4] = Except.error notSupportedMsg ∧
    create_encoder_from_obs_dim [33, 4] = Except.error notSupportedMsg :=
  c4_large_flat_shape_rejected 33 4 (by decide)

/-- C6: the encoder factory takes its flat branch on length-2 shapes with first
element ≤ 32 (its result is then exactly `create_simple_1D_encoder`), while the
decoder factory takes its flat branch only on length-1 shapes with first
element ≤ 32 (its result is then exactly `create_simple_1D_decoder`); on the
shape `(4, 4)` the encoder goes flat while the decoder builds the gridworld
decoder, so the two dispatch functions disagree on which shapes are flat. -/
theorem c6_flat_dispatch_disagrees :
    (∀ a b : Nat, a ≤ 32 →
      create_encoder_from_obs_dim [a, b] = create_simple_1D_encoder [a, b]) ∧
    (∀ a : Nat, a ≤ 32 →
      create_decoder_from_obs_dim [a] = create_simple_1D_decoder [a]) ∧
    create_encoder_from_obs_dim [4, 4] = create_simple_1D_encoder [4, 4] ∧
    create_decoder_from_obs_dim [4, 4] = Except.ok (create_gridworld_decoder 4) := by
  refine ⟨?_, ?_, ?_, ?_⟩
  · intro a b ha
    simp [create_encoder_from_obs_dim, tupGet, ha]
  · intro a ha
    simp [create_decoder_from_obs_dim, tupGet, ha]
  · decide
  · decide

/-- Witness for C6: the flat branches taken at `(4, 4)` (encoder side) and
`(4,)` (decoder side). -/
theorem c6_flat_dispatch_disagrees_witness :
    create_encoder_from_obs_dim [7, 5] = create_simple_1D_encoder [7, 5] ∧
    create_decoder_from_obs_dim [7] = create_simple_1D_decoder [7] :=
  ⟨c6_flat_dispatch_disagrees.1 7 5 (by decide),
   c6_flat_dispatch_disagrees.2.1 7 (by decide)⟩

/-- C10: every length-1 shape makes `get_hidden_size_from_obs_dim` and
`create_encoder_from_obs_dim` raise an `IndexError` (they read `obs_dim[1]`);
for a length-1 shape with first element ≤ 32, `create_decoder_from_obs_dim`
also raises an `IndexError` (inside `create_simple_1D_decoder`, which reads
`input_dim[1]`), and for first element > 32 it raises the configuration error,
so no length-1 shape is handled without an exception. -/
theorem c10_length_one_shapes_raise (a : Nat) :
    get_hidden_size_from_obs_dim [a] = Except.error indexErrorMsg ∧
    create_encoder_from_obs_dim [a] = Except.error indexErrorMsg ∧
    (a ≤ 32 → create_decoder_from_obs_dim [a] = Except.error indexErrorMsg) ∧
    (32 < a → create_decoder_from_obs_dim [a] = Except.error notSupportedMsg) := by
  refine ⟨?_, ?_, ?_, ?_⟩
  · simp [get_hidden_size_from_obs_dim, tupGet]
  · simp [create_encoder_from_obs_dim, tupGet]
  · intro ha
    simp [create_decoder_from_obs_dim, create_simple_1D_decoder, tupGet, ha]
  · intro ha
    have : ¬ a ≤ 32 := by omega
    simp [create_decoder_from_obs_dim, tupGet, this]

/-- Witness for C10 at shapes `(20,)` and `(40,)`. -/
theorem c10_length_one_shapes_raise_witness :
    create_decoder_from_obs_dim [20] = Except.error indexErrorMsg ∧
    create_decoder_from_obs_dim [40] = Except.error notSupportedMsg :=
  ⟨(c10_length_one_shapes_raise 20).2.2.1 (by decide),
   (c10_length_one_shapes_raise 40).2.2.2 (by decide)⟩

/-! ## Claims about the experience buffer -/

/-- The items a sequence of operations inserts, in insertion order. -/
def opsItems : List (BufOp α) → List α
  | [] => []
  | op :: ops => op.items ++ opsItems ops

/-- Taking the last `k` of a list whose prefix was already truncated to its
last `k` gives the same result as truncating the whole list. -/
theorem lastN_append_lastN (xs ys : List α) (k : Nat) :
    lastN (lastN xs k ++ ys) k = lastN (xs ++ ys) k := by
  unfold lastN
  rw [List.drop_append_eq_append_drop, List.drop_append_eq_append_drop,
      List.drop_drop]
  congr 1
  · congr 1
    simp only [List.length_append, List.length_drop]
    omega
  · congr 1
    simp only [List.length_append, List.length_drop]
    omega

/-- For positive capacity, `pySliceLast` is `lastN`. -/
theorem pySliceLast_eq_lastN (l : List α) (k : Nat) (hk : 1 ≤ k) :
    pySliceLast l k = lastN l k := by
  have : k ≠ 0 := by omega
  simp [pySliceLast, lastN, this]

/-- Invariant: running operations from a buffer holding the last `C` of `xs`
leaves the last `C` of `xs` followed by everything inserted. -/
theorem run_from_lastN (C : Nat) (hC : 1 ≤ C) (ops : List (BufOp α)) :
    ∀ xs : List α,
      ExperienceBufferMixin.run ⟨lastN xs C, C⟩ ops =
        ⟨lastN (xs ++ opsItems ops) C, C⟩ := by
  induction ops with
  | nil => intro xs; simp [ExperienceBufferMixin.run, opsItems]
  | cons op ops ih =>
    cases op with
    | append d =>
      intro xs
      have hstep : ExperienceBufferMixin.append_data ⟨lastN xs C, C⟩ d =
          (⟨lastN (xs ++ [d]) C, C⟩ : ExperienceBufferMixin α) := by
        simp [ExperienceBufferMixin.append_data, ExperienceBufferMixin.fix_size,
              pySliceLast_eq_lastN _ _ hC, lastN_append_lastN]
      calc ExperienceBufferMixin.run ⟨lastN xs C, C⟩ (BufOp.append d :: ops)
          = ExperienceBufferMixin.run ⟨lastN (xs ++ [d]) C, C⟩ ops := by
            rw [ExperienceBufferMixin.run, hstep]
        _ = ⟨lastN ((xs ++ [d]) ++ opsItems ops) C, C⟩ := ih (xs ++ [d])
        _ = ⟨lastN (xs ++ opsItems (BufOp.append d :: ops)) C, C⟩ := by
            simp [opsItems, BufOp.items]
    | extend ds =>
      intro xs
      have hstep : ExperienceBufferMixin.extend_data ⟨lastN xs C, C⟩ ds =
          (⟨lastN (xs ++ ds) C, C⟩ : ExperienceBufferMixin α) := by
        simp [ExperienceBufferMixin.extend_data, ExperienceBufferMixin.fix_size,
              pySliceLast_eq_lastN _ _ hC, lastN_append_lastN]
      calc ExperienceBufferMixin.run ⟨lastN xs C, C⟩ (BufOp.extend ds :: ops)
          = ExperienceBufferMixin.run ⟨lastN (xs ++ ds) C, C⟩ ops := by
            rw [ExperienceBufferMixin.run, hstep]
        _ = ⟨lastN ((xs ++ ds) ++ opsItems ops) C, C⟩ := ih (xs ++ ds)
        _ = ⟨lastN (xs ++ opsItems (BufOp.extend ds :: ops)) C, C⟩ := by
            simp [opsItems, BufOp.items]

/-- C2 (amended to positive capacity): after any sequence of `append_data` and
`extend_data` calls on an initially empty buffer of capacity `C ≥ 1`, the
buffer holds exactly the most recently inserted `C` items in insertion order
(all of them when fewer were inserted), and in particular at most `C` items. -/
theorem c2_buffer_keeps_most_recent (C : Nat) (hC : 1 ≤ C)
    (ops : List (BufOp α)) :
    (ExperienceBufferMixin.run ⟨[], C⟩ ops).buffer = lastN (opsItems ops) C ∧
    (ExperienceBufferMixin.run ⟨[], C⟩ ops).buffer.length ≤ C := by
  have h0 : (⟨[], C⟩ : ExperienceBufferMixin α) = ⟨lastN [] C, C⟩ := by
    simp [lastN]
  rw [h0, run_from_lastN C hC ops []]
  refine ⟨by simp, ?_⟩
  simp only [lastN, List.nil_append, List.length_drop]
  omega

/-- Witness for C2: capacity 3, appending 1,2,3,4,5 leaves `[3, 4, 5]`. -/
theorem c2_buffer_keeps_most_recent_witness :
    (ExperienceBufferMixin.run ⟨([] : List ℤ), 3⟩
      [BufOp.append 1, BufOp.append 2, BufOp.append 3,
       BufOp.append 4, BufOp.append 5]).buffer = [3, 4, 5] := by
  have h := c2_buffer_keeps_most_recent (α := ℤ) 3 (by decide)
    [BufOp.append 1, BufOp.append 2, BufOp.append 3,
     BufOp.append 4, BufOp.append 5]
  rw [h.1]
  decide

/-- Counterexample to C2 as stated: with capacity 0 the slice
`self.buffer[-0:]` is the whole list, so one `append_data` leaves 1 > 0 items
in the buffer. -/
theorem c2_capacity_zero_counterexample :
    (ExperienceBufferMixin.run ⟨([] : List ℤ), 0⟩ [BufOp.append 1]).buffer = [1] ∧
    ¬ (ExperienceBufferMixin.run ⟨([] : List ℤ), 0⟩ [BufOp.append 1]).buffer.length ≤ 0 := by
  decide

/-- C9: a successful `sample` call leaves the buffer contents and the capacity
unchanged: the method reads `self.buffer` and assigns to neither field. -/
theorem c9_sample_is_read_only (st : ExperienceBufferMixin (List ℚ))
    (n : Nat) (replace : Bool) (idxs : List Nat) (res : List (List ℚ))
    (st' : ExperienceBufferMixin (List ℚ))
    (h : st.sample n replace idxs = (Except.ok res, st')) :
    st'.buffer = st.buffer ∧ st'.max_size = st.max_size := by
  have h2 : st' = st := by
    have := congrArg Prod.snd h
    simpa [ExperienceBufferMixin.sample] using this.symm
  rw [h2]
  exact ⟨rfl, rfl⟩

/-- Witness for C9: a concrete successful sample from a two-record buffer. -/
theorem c9_sample_is_read_only_witness :
    (⟨[[(1 : ℚ), 2], [3, 4]], 10⟩ : ExperienceBufferMixin (List ℚ)).buffer
      = [[(1 : ℚ), 2], [3, 4]] ∧
    (10 : Nat) = 10 := by
  have h := c9_sample_is_read_only ⟨[[(1 : ℚ), 2], [3, 4]], 10⟩ 1 false [0]
    [[1], [2]] ⟨[[(1 : ℚ), 2], [3, 4]], 10⟩ (by decide)
  exact ⟨h.1, h.2⟩

/-- C5 (amended to `1 ≤ n`): without replacement, requesting more items than
the buffer holds fails; requesting `1 ≤ n ≤ size` items succeeds, whatever
valid indices the uniform draw produced, and returns one array per tuple
position of the stored records, each holding `n` entries. -/
theorem c5_sample_bounds (buffer : List (List ℚ)) (k n : Nat) (idxs : List Nat)
    (harity : ∀ r ∈ buffer, r.length = k) :
    (buffer.length < n → (sampleData buffer n false idxs).isOk = false) ∧
    (1 ≤ n → n ≤ buffer.length → idxs.length = n →
      (∀ i ∈ idxs, i < buffer.length) →
      ∃ res, sampleData buffer n false idxs = Except.ok res ∧
        res.length = k ∧ ∀ arr ∈ res, arr.length = n) := by
  constructor
  · intro hlt
    simp only [sampleData, npChoice]
    split_ifs with h1 h2
    · rfl
    · rfl
    · exact absurd ⟨trivial, hlt⟩ h2
  · intro hn hle hlen hvalid
    have hpop : ¬ (buffer.length = 0 ∧ n ≠ 0) := by omega
    have hnlt : ¬ (buffer.length < n) := by omega
    cases idxs with
    | nil => simp at hlen; omega
    | cons i0 rest =>
      have hne : ((i0 :: rest).map (fun i => buffer.getD i [])).isEmpty = false := by
        simp
      have hi0 : i0 < buffer.length := hvalid i0 (by simp)
      have hhead : buffer.getD i0 [] ∈ buffer := by
        rw [List.getD_eq_getElem?_getD, List.getElem?_eq_getElem hi0]
        exact List.getElem_mem hi0
      have harI : (buffer.getD i0 []).length = k := harity _ hhead
      have hsd : sampleData buffer n false (i0 :: rest) =
          Except.ok ((List.range ((buffer.getD i0 []).length)).map
            (fun j => ((i0 :: rest).map (fun i => buffer.getD i [])).map
              (fun r => r.getD j 0))) := by
        simp only [sampleData, npChoice, if_neg hpop]
        rw [if_neg (fun h => hnlt h.2)]
        simp [List.headD]
      refine ⟨_, hsd, ?_, ?_⟩
      · simpa [List.getD_eq_getElem?_getD] using harI
      · intro arr harr
        simp only [List.mem_map] at harr
        obtain ⟨j, _, rfl⟩ := harr
        simpa using hlen

/-- Witness for C5 on a buffer of size 5 and arity 2: `n = 6` without
replacement fails, `n = 2` succeeds with 2 per-field arrays of 2 entries. -/
theorem c5_sample_bounds_witness :
    (sampleData [[(1 : ℚ), 1], [2, 2], [3, 3], [4, 4], [5, 5]] 6 false []).isOk = false ∧
    ∃ res, sampleData [[(1 : ℚ), 1], [2, 2], [3, 3], [4, 4], [5, 5]] 2 false [0, 3] =
        Except.ok res ∧ res.length = 2 ∧ ∀ arr ∈ res, arr.length = 2 :=
  ⟨(c5_sample_bounds [[(1 : ℚ), 1], [2, 2], [3, 3], [4, 4], [5, 5]] 2 6 []
      (by decide)).1 (by decide),
   (c5_sample_bounds [[(1 : ℚ), 1], [2, 2], [3, 3], [4, 4], [5, 5]] 2 2 [0, 3]
      (by decide)).2 (by decide) (by decide) (by decide) (by decide)⟩

/-- Counterexample to C5 as stated: `n = 0` is at most the buffer size 5, yet
`sample(0, replace=False)` raises (the stacked empty batch is 1-dimensional,
so `batch_data.shape[1]` is an `IndexError`) instead of returning per-field
arrays. -/
theorem c5_sample_zero_counterexample :
    (0 : Nat) ≤ ([[(1 : ℚ), 1], [2, 2], [3, 3], [4, 4], [5, 5]] : List (List ℚ)).length ∧
    sampleData [[(1 : ℚ), 1], [2, 2], [3, 3], [4, 4], [5, 5]] 0 false [] =
      Except.error indexErrorMsg := by
  constructor
  · decide
  · rfl

/-! ## Claim about the dueling-Q network -/

/-- C3: `DDDQNNetwork.forward` equals `value + (advantage − mean(advantage))`
for every input; the mean-subtracted advantage term sums (hence averages) to
zero over the action dimension for every fixed state; and after
`_init_weights` (run by the constructor) the advantage stream is exactly zero,
so its mean over the action dimension is exactly zero for every input. -/
theorem c3_dueling_q_mean_subtraction (σ : Type) (encOut hid n_acts : Nat)
    (net : DDDQNNetwork σ encOut hid n_acts) :
    (∀ x i, net.forward x i =
        net.valueOut (net.encoder x) ⟨0, Nat.one_pos⟩ +
          (net.advantageOut (net.encoder x) i - net.advantageMean (net.encoder x))) ∧
    (∀ z : Fin encOut → ℚ,
        (∑ i, (net.advantageOut z i - net.advantageMean z)) / n_acts = 0) ∧
    (∀ z : Fin encOut → ℚ, ∀ i,
        (DDDQNNetwork.init_weights net).advantageOut z i = 0) ∧
    (∀ z : Fin encOut → ℚ,
        (DDDQNNetwork.init_weights net).advantageMean z = 0) := by
  refine ⟨fun x i => rfl, ?_, ?_, ?_⟩
  · intro z
    rcases Nat.eq_zero_or_pos n_acts with h | h
    · subst h
      simp
    · have hn : (n_acts : ℚ) ≠ 0 := Nat.cast_ne_zero.mpr (by omega)
      rw [Finset.sum_sub_distrib, Finset.sum_const, Finset.card_univ,
          Fintype.card_fin, nsmul_eq_mul]
      simp only [DDDQNNetwork.advantageMean]
      have hcancel : (n_acts : ℚ) * ((∑ i, net.advantageOut z i) / n_acts) =
          ∑ i, net.advantageOut z i := by
        field_simp
      rw [hcancel, sub_self, zero_div]
  · intro z i
    simp [DDDQNNetwork.init_weights, DDDQNNetwork.advantageOut, LinearLayer.apply]
  · intro z
    simp [DDDQNNetwork.advantageMean, DDDQNNetwork.init_weights,
          DDDQNNetwork.advantageOut, LinearLayer.apply]

/-! ## Claims about the policy network and the state-prediction model -/

/-- `seqShape` over a concatenation runs the first stack, then the second. -/
theorem seqShape_append (l1 l2 : List Layer) (s : List Nat) :
    seqShape (l1 ++ l2) s =
      match seqShape l1 s with
      | Except.ok t => seqShape l2 t
      | Except.error e => Except.error e := by
  induction l1 generalizing s with
  | nil => rfl
  | cons l ls ih =>
    simp only [List.cons_append, seqShape]
    cases l.outShape s with
    | ok s' => exact ih s'
    | error e => rfl

/-- Batch invariance of the factory encoders: if the construction-time trial
forward pass (batch 1) through an encoder built by
`create_encoder_from_obs_dim` succeeds with shape `t`, then `t` starts with
the trial batch 1, and a batch of any size `B` passes through with the same
per-sample shape. -/
theorem encoder_trial_batch (obs_dim : List Nat) (enc : List Layer) (t : List Nat)
    (henc : create_encoder_from_obs_dim obs_dim = Except.ok enc)
    (ht : seqShape enc (1 :: obs_dim) = Except.ok t) :
    ∃ t', t = 1 :: t' ∧ t.prod = t'.prod ∧
      ∀ B, seqShape enc (B :: obs_dim) = Except.ok (B :: t') := by
  match obs_dim with
  | [] => simp [create_encoder_from_obs_dim, tupGet] at henc
  | [a] => simp [create_encoder_from_obs_dim, tupGet] at henc
  | [a, b] =>
    by_cases ha : a ≤ 32
    · have hE : create_encoder_from_obs_dim [a, b] =
          Except.ok [Layer.flatten, Layer.linear (a * b) 16, Layer.relu,
                     Layer.linear 16 32, Layer.relu] := by
        simp [create_encoder_from_obs_dim, create_simple_1D_encoder, tupGet, ha]
      rw [hE] at henc
      obtain rfl := Except.ok.inj henc
      have hT : seqShape [Layer.flatten, Layer.linear (a * b) 16, Layer.relu,
          Layer.linear 16 32, Layer.relu] [1, a, b] = Except.ok [1, 32] := by
        simp [seqShape, Layer.outShape, List.getLastD, List.dropLast]
      rw [hT] at ht
      obtain rfl := Except.ok.inj ht
      exact ⟨[32], rfl, by simp, fun B => by
        simp [seqShape, Layer.outShape, List.getLastD, List.dropLast]⟩
    · simp [create_encoder_from_obs_dim, tupGet, ha] at henc
  | [a, b, c] =>
    by_cases hb : b ≤ 32
    · have hE : create_encoder_from_obs_dim [a, b, c] =
          Except.ok (create_gridworld_encoder a) := by
        simp [create_encoder_from_obs_dim, tupGet, hb]
      rw [hE] at henc
      obtain rfl := Except.ok.inj henc
      by_cases h1 : 4 ≤ b
      · by_cases h2 : 4 ≤ c
        · by_cases h3 : 3 ≤ convOut b 4 2 0
          · by_cases h4 : 3 ≤ convOut c 4 2 0
            · have hT : seqShape (create_gridworld_encoder a) [1, a, b, c] =
                  Except.ok [1, 16, convOut (convOut b 4 2 0) 3 1 0,
                             convOut (convOut c 4 2 0) 3 1 0] := by
                simp [create_gridworld_encoder, seqShape, Layer.outShape,
                      h1, h2, h3, h4]
              rw [hT] at ht
              obtain rfl := Except.ok.inj ht
              exact ⟨_, rfl, by simp, fun B => by
                simp [create_gridworld_encoder, seqShape, Layer.outShape,
                      h1, h2, h3, h4]⟩
            · have hT : seqShape (create_gridworld_encoder a) [1, a, b, c] =
                  Except.error "conv2d: invalid input" := by
                simp [create_gridworld_encoder, seqShape, Layer.outShape,
                      h1, h2, h3, h4]
              rw [hT] at ht
              simp at ht
          · have hT : seqShape (create_gridworld_encoder a) [1, a, b, c] =
                Except.error "conv2d: invalid input" := by
              simp [create_gridworld_encoder, seqShape, Layer.outShape, h1, h2, h3]
            rw [hT] at ht
            simp at ht
        · have hT : seqShape (create_gridworld_encoder a) [1, a, b, c] =
              Except.error "conv2d: invalid input" := by
            simp [create_gridworld_encoder, seqShape, Layer.outShape, h1, h2]
          rw [hT] at ht
          simp at ht
      · have hT : seqShape (create_gridworld_encoder a) [1, a, b, c] =
            Except.error "conv2d: invalid input" := by
          simp [create_gridworld_encoder, seqShape, Layer.outShape, h1]
        rw [hT] at ht
        simp at ht
    · have hE : create_encoder_from_obs_dim [a, b, c] =
          Except.ok (create_atari_encoder a) := by
        simp [create_encoder_from_obs_dim, tupGet, hb]
      rw [hE] at henc
      obtain rfl := Except.ok.inj henc
      by_cases h1 : 5 ≤ b
      · by_cases h2 : 5 ≤ c
        · by_cases h3 : 5 ≤ convOut b 5 5 0
          · by_cases h4 : 5 ≤ convOut c 5 5 0
            · have hT : seqShape (create_atari_encoder a) [1, a, b, c] =
                  Except.ok [1, 64, convOut (convOut b 5 5 0) 5 5 0,
                             convOut (convOut c 5 5 0) 5 5 0] := by
                simp [create_atari_encoder, seqShape, Layer.outShape,
                      h1, h2, h3, h4]
              rw [hT] at ht
              obtain rfl := Except.ok.inj ht
              exact ⟨_, rfl, by simp, fun B => by
                simp [create_atari_encoder, seqShape, Layer.outShape,
                      h1, h2, h3, h4]⟩
            · have hT : seqShape (create_atari_encoder a) [1, a, b, c] =
                  Except.error "conv2d: invalid input" := by
                simp [create_atari_encoder, seqShape, Layer.outShape,
                      h1, h2, h3, h4]
              rw [hT] at ht
              simp at ht
          · have hT : seqShape (create_atari_encoder a) [1, a, b, c] =
                Except.error "conv2d: invalid input" := by
              simp [create_atari_encoder, seqShape, Layer.outShape, h1, h2, h3]
            rw [hT] at ht
            simp at ht
        · have hT : seqShape (create_atari_encoder a) [1, a, b, c] =
              Except.error "conv2d: invalid input" := by
            simp [create_atari_encoder, seqShape, Layer.outShape, h1, h2]
          rw [hT] at ht
          simp at ht
      · have hT : seqShape (create_atari_encoder a) [1, a, b, c] =
            Except.error "conv2d: invalid input" := by
          simp [create_atari_encoder, seqShape, Layer.outShape, h1]
        rw [hT] at ht
        simp at ht
  | a :: b :: c :: d :: rest =>
    by_cases hb : b ≤ 32
    · have hE : create_encoder_from_obs_dim (a :: b :: c :: d :: rest) =
          Except.ok (create_gridworld_encoder a) := by
        simp [create_encoder_from_obs_dim, tupGet, hb]
      rw [hE] at henc
      obtain rfl := Except.ok.inj henc
      have hT : seqShape (create_gridworld_encoder a)
          (1 :: a :: b :: c :: d :: rest) =
          Except.error "conv2d: expected 4D input" := by
        simp [create_gridworld_encoder, seqShape, Layer.outShape]
      rw [hT] at ht
      simp at ht
    · have hE : create_encoder_from_obs_dim (a :: b :: c :: d :: rest) =
          Except.ok (create_atari_encoder a) := by
        simp [create_encoder_from_obs_dim, tupGet, hb]
      rw [hE] at henc
      obtain rfl := Except.ok.inj henc
      have hT : seqShape (create_atari_encoder a)
          (1 :: a :: b :: c :: d :: rest) =
          Except.error "conv2d: expected 4D input" := by
        simp [create_atari_encoder, seqShape, Layer.outShape]
      rw [hT] at ht
      simp at ht

/-- C7 (amended to shapes on which construction succeeds): whenever
`PolicyNetwork(obs_dim, n)` constructs without error — the factory encoder
builds and the construction-time trial forward pass goes through — the forward
pass on a batch of `B` observations of shape `obs_dim` returns a tensor of
shape `(B, n)`, through encoder → flatten → linear(→hidden) → activation →
linear(→n). -/
theorem c7_policy_forward_shape (obs_dim : List Nat) (n B : Nat)
    (net : PolicyNetwork) (h : PolicyNetwork.make obs_dim n = Except.ok net) :
    PolicyNetwork.forwardShape net (B :: obs_dim) = Except.ok [B, n] := by
  cases hE : create_encoder_from_obs_dim obs_dim with
  | error e => simp [PolicyNetwork.make, hE] at h
  | ok enc =>
    cases hT : seqShape enc (1 :: obs_dim) with
    | error e => simp [PolicyNetwork.make, hE, hT] at h
    | ok trial =>
      cases hH : get_hidden_size_from_obs_dim obs_dim with
      | error e => simp [PolicyNetwork.make, hE, hT, hH] at h
      | ok hid =>
        simp only [PolicyNetwork.make, hE, hT, hH, Except.ok.injEq] at h
        subst h
        obtain ⟨t', rfl, hprod, hB⟩ := encoder_trial_batch obs_dim enc trial hE hT
        simp only [PolicyNetwork.forwardShape, PolicyNetwork.layers]
        rw [seqShape_append, hB B]
        simp [seqShape, Layer.outShape, List.getLastD, List.dropLast, hprod]

/-- Witness for C7 on the flat shape `(32, 4)` with 2 actions and batch 7. -/
theorem c7_policy_forward_shape_witness :
    PolicyNetwork.forwardShape
      ⟨[Layer.flatten, Layer.linear 128 16, Layer.relu, Layer.linear 16 32,
        Layer.relu], 32, 32, 2⟩ [7, 32, 4] = Except.ok [7, 2] :=
  c7_policy_forward_shape [32, 4] 2 7 _ (by decide)

/-- Counterexample to C7 as stated: the shape `(1, 2, 2)` is supported by the
classifier (family small-grid, width 64), yet `PolicyNetwork((1,2,2), 2)`
fails at construction — the 2×2 grid is smaller than the first 4×4
convolution kernel — so no forward pass returns a `(B, 2)` tensor. -/
theorem c7_tiny_grid_counterexample :
    get_hidden_size_from_obs_dim [1, 2, 2] = Except.ok 64 ∧
    (PolicyNetwork.make [1, 2, 2] 2).isOk = false := by
  constructor
  · decide
  · rfl

/-- C8 (amended): when `StatePredictionModel(obs_dim, n_acts)` constructs, the
transition function's input width is the encoder's flattened output width plus
`n_acts`; but the construction-time trial forward pass exercises only the
encoder, so an action batch of the wrong width is rejected with a dimension
error at forward (training) time, not at construction. -/
theorem c8_world_model_action_width (obs_dim : List Nat) (n_acts : Nat)
    (m : StatePredictionModel)
    (h : StatePredictionModel.make obs_dim n_acts = Except.ok m) :
    (∃ rest, m.fc = Layer.linear (m.output_dim + n_acts) m.hidden_size :: rest) ∧
    (∀ B w, w ≠ n_acts →
      (StatePredictionModel.forwardShape m (B :: obs_dim) [B, w]).isOk = false) := by
  cases hE : create_encoder_from_obs_dim obs_dim with
  | error e => simp [StatePredictionModel.make, hE] at h
  | ok down =>
    cases hT : seqShape down (1 :: obs_dim) with
    | error e => simp [StatePredictionModel.make, hE, hT] at h
    | ok trial =>
      cases hH : get_hidden_size_from_obs_dim obs_dim with
      | error e => simp [StatePredictionModel.make, hE, hT, hH] at h
      | ok hid =>
        cases hD : create_decoder_from_obs_dim obs_dim with
        | error e => simp [StatePredictionModel.make, hE, hT, hH, hD] at h
        | ok up =>
          simp only [StatePredictionModel.make, hE, hT, hH, hD,
            Except.ok.injEq] at h
          subst h
          refine ⟨⟨_, rfl⟩, ?_⟩
          intro B w hw
          obtain ⟨t', rfl, hprod, hB⟩ :=
            encoder_trial_batch obs_dim down trial hE hT
          by_cases hB0 : B = 0
          · subst hB0
            simp [StatePredictionModel.forwardShape, hB 0, tupGet, viewTwo]
            rfl
          · have hview : viewTwo B (B * t'.prod) = Except.ok [B, t'.prod] := by
              have hpos : 0 < B := Nat.pos_of_ne_zero hB0
              simp [viewTwo, hB0, Nat.mul_mod_right,
                    Nat.mul_div_cancel_left _ hpos]
            have hcond : ¬ (t'.prod + w = t'.prod + n_acts) := by omega
            simp [StatePredictionModel.forwardShape, hB B, tupGet, hview,
                  catDim1, seqShape, Layer.outShape, List.getLastD, hprod, hcond]
            rfl

/-- Witness for C8: the model built for shape `(1, 20, 20)` with 4 actions
(encoder flattened width 784, transition input width 788) rejects an action
batch of width 3 at forward time, batch 2. -/
theorem c8_world_model_action_width_witness :
    (StatePredictionModel.forwardShape
      ⟨create_gridworld_encoder 1, 784, 64, 4,
       [Layer.linear 788 64, Layer.relu, Layer.linear 64 64, Layer.relu,
        Layer.linear 64 784, Layer.relu],
       create_gridworld_decoder 1⟩ [2, 1, 20, 20] [2, 3]).isOk = false :=
  (c8_world_model_action_width [1, 20, 20] 4 _ (by decide)).2 2 3 (by decide)

/-- Counterexample to C8 as stated: construction of the world model for shape
`(1, 20, 20)` with `n_acts = 4` succeeds (the trial forward pass raises no
error, since it never sees an action vector), and the width-3 action batch is
only rejected later, by the transition function's first linear layer during
forward — so the mismatch does not fail at construction time. -/
theorem c8_mismatch_passes_construction :
    StatePredictionModel.make [1, 20, 20] 4 = Except.ok
      ⟨create_gridworld_encoder 1, 784, 64, 4,
       [Layer.linear 788 64, Layer.relu, Layer.linear 64 64, Layer.relu,
        Layer.linear 64 784, Layer.relu],
       create_gridworld_decoder 1⟩ ∧
    StatePredictionModel.forwardShape
      ⟨create_gridworld_encoder 1, 784, 64, 4,
       [Layer.linear 788 64, Layer.relu, Layer.linear 64 64, Layer.relu,
        Layer.linear 64 784, Layer.relu],
       create_gridworld_decoder 1⟩ [2, 1, 20, 20] [2, 3] =
      Except.error "mat1 and mat2 shapes cannot be multiplied" := by
  constructor
  · decide
  · decide
